import Mathlib

/-!
# Introtutorial gain / phase plugin: `Source/PluginProcessor.cpp`

A shallow embedding of `IntrotutorialAudioProcessor`.

Conventions of the embedding

* Parameter values and the cached gain are finite C++ `float`s; they are embedded by
  their exact value in a carrier `F` (a ring; an ordered field with a floor where
  `processBlock` rounds), and no arithmetic is done on them outside `processBlock`.
  Statements that mention `10^(g/20)` take `F = ℝ`.
* A sample of an audio buffer is a `Binary32 F`: a finite value, an infinity or a NaN.
  The `*=` of `processBlock` is the binary32 product: the exact product rounded to the
  nearest binary32 value, ties to even, with overflow to infinity; `ScopedNoDenormals`
  is the flag `noDenormals` of that product.
* The JUCE framework is not part of the repository.  The framework functions the
  processor calls (`juce::Decibels::decibelsToGain`, `juce::ValueTree::readFromData`,
  `juce::ValueTree::writeToStream`) are parameters of the operations that call them,
  and `getTotalNumInputChannels()` / `getTotalNumOutputChannels()` are parameters of
  `processBlock`.
* `treeState` is seen through `getRawParameterValue`: it is the triple of raw
  (float) values of the three parameters declared by `createParameterLayout`.
-/

namespace Introtutorial

/-! ## Data model -/

/-- The parameter store `treeState.state`, as seen through `getRawParameterValue`:
the raw float value of each parameter declared in `createParameterLayout`
(`"gain"`, `"phase"`, `"choice"`). -/
structure ParameterStore (F : Type) where
  gain : F
  phase : F
  choice : F
deriving DecidableEq

/-- A `juce::MemoryBlock` / `(const void* data, int sizeInBytes)`: a sequence of bytes. -/
abbrev MemoryBlock := List UInt8

/-- A `juce::ValueTree` read back from a blob: `none` is the invalid tree
(`isValid()` false), `some s` a valid tree holding the parameter values `s`. -/
abbrev ValueTree (F : Type) := Option (ParameterStore F)

/-- `juce::ValueTree::isValid`. -/
def ValueTree.isValid {F : Type} (tree : ValueTree F) : Bool := tree.isSome

/-- A `juce::AudioBuffer<float>`: `numChannels` channels of `numSamples` samples each;
`data c s` is sample `s` of channel `c` (meaningful for `c < numChannels`,
`s < numSamples`). -/
structure AudioBuffer (F : Type) where
  numChannels : Nat
  numSamples : Nat
  data : Nat → Nat → F

/-- A binary32 (`float`) value held in an audio buffer: a finite value, given by the
number it denotes (`+0` and `-0` are one value, as they are for `==`), an infinity with
its sign, or a NaN. -/
inductive Binary32 (F : Type) where
  | finite (value : F)
  | infinity (negative : Bool)
  | nan
deriving DecidableEq

/-- Modelled from the spec: the member declarations of `IntrotutorialAudioProcessor` are
in `PluginProcessor.h`, which is not among the sources.  The spec gives, next to the
parameter store `treeState`, a cached `rawGain` (linear multiplier) and a cached `phase`
(boolean); these are the members the source file reads and writes.  `rawGain` is taken
to be a `float` member holding a finite value. -/
structure IntrotutorialAudioProcessor (F : Type) where
  treeState : ParameterStore F
  rawGain : F
  phase : Bool

/-- `juce::AudioChannelSet`: the set of channel types of a bus, by the numeric value of
`AudioChannelSet::ChannelType` (left = 1, right = 2, centre = 3, LFE = 4,
leftSurround = 5, rightSurround = 6). -/
abbrev AudioChannelSet := Finset Nat

/-- `juce::AudioChannelSet::disabled()`. -/
def AudioChannelSet.disabled : AudioChannelSet := ∅

/-- `juce::AudioChannelSet::mono()`: the centre channel. -/
def AudioChannelSet.mono : AudioChannelSet := {3}

/-- `juce::AudioChannelSet::stereo()`: left and right. -/
def AudioChannelSet.stereo : AudioChannelSet := {1, 2}

/-- `juce::AudioChannelSet::create5point1()`: left, right, centre, LFE and the two
surrounds (6 channels). -/
def AudioChannelSet.create5point1 : AudioChannelSet := {1, 2, 3, 4, 5, 6}

/-- `juce::AudioProcessor::BusesLayout`: the channel set of every input and output bus. -/
structure BusesLayout where
  inputBuses : List AudioChannelSet
  outputBuses : List AudioChannelSet

/-- `BusesLayout::getMainInputChannelSet`: bus 0, or `disabled()` when there is none. -/
def BusesLayout.getMainInputChannelSet (layouts : BusesLayout) : AudioChannelSet :=
  layouts.inputBuses.headD AudioChannelSet.disabled

/-- `BusesLayout::getMainOutputChannelSet`: bus 0, or `disabled()` when there is none. -/
def BusesLayout.getMainOutputChannelSet (layouts : BusesLayout) : AudioChannelSet :=
  layouts.outputBuses.headD AudioChannelSet.disabled

section Operations

variable {F : Type} [Ring F] [DecidableEq F]

/-- The values `createParameterLayout` gives the three parameters at construction:
gain `0.0` (range `-24.0 .. 24.0`), phase `false`, choice index `0`. -/
def createParameterLayout : ParameterStore F :=
  { gain := 0, phase := 0, choice := 0 }

/-- `treeState.getRawParameterValue (id)`, dereferenced. -/
def ParameterStore.getRawParameterValue (s : ParameterStore F) (parameterID : String) : F :=
  if parameterID = "gain" then s.gain
  else if parameterID = "phase" then s.phase
  else if parameterID = "choice" then s.choice
  else 0

/-- The C++ conversion of a `float` assigned to a `bool`: true exactly for a non-zero
value. -/
def floatToBool (v : F) : Bool := decide (v ≠ 0)

namespace IntrotutorialAudioProcessor

/-- `IntrotutorialAudioProcessor::parameterChanged` (lines 57-74).  The `DBG` trace has
no effect on the state. -/
def parameterChanged (decibelsToGain : F → F) (self : IntrotutorialAudioProcessor F)
    (parameterID : String) (newValue : F) : IntrotutorialAudioProcessor F :=
  let self := if parameterID = "gain" then
      { self with rawGain := decibelsToGain newValue }
    else self
  let self := if parameterID = "phase" then
      { self with phase := floatToBool newValue }
    else self
  let self := if parameterID = "choice" then
      self
    else self
  self

/-- `IntrotutorialAudioProcessor::prepareToPlay` (lines 139-146); the sample rate and
block size are not used. -/
def prepareToPlay (decibelsToGain : F → F) (self : IntrotutorialAudioProcessor F) :
    IntrotutorialAudioProcessor F :=
  let self := { self with phase := floatToBool (self.treeState.getRawParameterValue "phase") }
  { self with rawGain := decibelsToGain (self.treeState.getRawParameterValue "gain") }

/-- `IntrotutorialAudioProcessor::isBusesLayoutSupported` (lines 155-177).  The two
preprocessor flags `JucePlugin_IsMidiEffect` and `JucePlugin_IsSynth` come from the
project configuration and are parameters here. -/
def isBusesLayoutSupported (JucePlugin_IsMidiEffect JucePlugin_IsSynth : Bool)
    (layouts : BusesLayout) : Bool :=
  if JucePlugin_IsMidiEffect then true
  else
    if layouts.getMainOutputChannelSet ≠ AudioChannelSet.mono
        ∧ layouts.getMainOutputChannelSet ≠ AudioChannelSet.stereo then false
    else if ¬ JucePlugin_IsSynth
        ∧ layouts.getMainOutputChannelSet ≠ layouts.getMainInputChannelSet then false
    else true

/-- `IntrotutorialAudioProcessor::getStateInformation` (lines 244-254): the stream is
opened with `appendToExistingBlockContent = false`, so the old content of `destData`
is replaced by the serialised tree. -/
def getStateInformation (writeToStream : ParameterStore F → MemoryBlock)
    (self : IntrotutorialAudioProcessor F) (_destData : MemoryBlock) : MemoryBlock :=
  writeToStream self.treeState

/-- `IntrotutorialAudioProcessor::setStateInformation` (lines 256-274). -/
def setStateInformation (decibelsToGain : F → F) (readFromData : MemoryBlock → ValueTree F)
    (self : IntrotutorialAudioProcessor F) (data : MemoryBlock) :
    IntrotutorialAudioProcessor F :=
  let tree := readFromData data
  match tree with
  | some state =>
    let self := { self with treeState := state }
    let self := { self with phase := floatToBool (self.treeState.getRawParameterValue "phase") }
    { self with rawGain := decibelsToGain (self.treeState.getRawParameterValue "gain") }
  | none => self

end IntrotutorialAudioProcessor

/-! ## Control operations -/

/-- The framework side of a parameter change: the store takes the committed value of the
parameter with that ID (an unknown ID changes nothing). -/
def ParameterStore.setValue (s : ParameterStore F) (parameterID : String) (newValue : F) :
    ParameterStore F :=
  if parameterID = "gain" then { s with gain := newValue }
  else if parameterID = "phase" then { s with phase := newValue }
  else if parameterID = "choice" then { s with choice := newValue }
  else s

/-- The operations of the control context: a committed parameter change, which the
framework delivers to the listener `parameterChanged`; `prepareToPlay`; and
`setStateInformation` with some blob. -/
inductive ControlOp (F : Type) where
  | parameterChange (parameterID : String) (newValue : F)
  | prepareToPlay
  | setStateInformation (data : MemoryBlock)

/-- One control operation.  For a parameter change the store is updated and the listener
is then called with the same ID and value (spec 4.1: the listener is invoked
synchronously whenever a parameter's committed value changes). -/
def ControlOp.apply (decibelsToGain : F → F) (readFromData : MemoryBlock → ValueTree F)
    (self : IntrotutorialAudioProcessor F) : ControlOp F → IntrotutorialAudioProcessor F
  | .parameterChange parameterID newValue =>
    IntrotutorialAudioProcessor.parameterChanged decibelsToGain
      { self with treeState := self.treeState.setValue parameterID newValue }
      parameterID newValue
  | .prepareToPlay => self.prepareToPlay decibelsToGain
  | .setStateInformation data => self.setStateInformation decibelsToGain readFromData data

/-- A sequence of control operations, applied in order. -/
def runControl (decibelsToGain : F → F) (readFromData : MemoryBlock → ValueTree F)
    (self : IntrotutorialAudioProcessor F) (ops : List (ControlOp F)) :
    IntrotutorialAudioProcessor F :=
  ops.foldl (ControlOp.apply decibelsToGain readFromData) self

/-! ## A concrete codec for the checks on concrete inputs -/

/-- An example of a tree reader: a blob of exactly four bytes whose first byte is `80`
is a valid tree, the other three bytes being gain, phase and choice offset by 128; every
other blob is the invalid tree. -/
def exampleReadFromData : MemoryBlock → ValueTree F
  | [tag, g, p, c] =>
    if tag = 80 then
      some { gain := (g.toNat : F) - 128, phase := (p.toNat : F) - 128,
             choice := (c.toNat : F) - 128 }
    else none
  | _ => none

/-- An example of a control sequence: set the gain to 6 dB, load a garbage blob, turn the
phase on, move the choice, prepare playback, then load the valid blob
`[80, 140, 129, 128]` (gain 12, phase 1, choice 0). -/
def exampleControlSequence : List (ControlOp F) :=
  [.parameterChange "gain" 6, .setStateInformation [222, 173, 190],
   .parameterChange "phase" 1, .parameterChange "choice" 2, .prepareToPlay,
   .setStateInformation [80, 140, 129, 128]]

end Operations

/-! ## Audio buffers -/

namespace AudioBuffer

variable {S : Type}

/-- `AudioBuffer::getNumChannels`. -/
def getNumChannels (buffer : AudioBuffer S) : Nat := buffer.numChannels

/-- `AudioBuffer::getNumSamples`. -/
def getNumSamples (buffer : AudioBuffer S) : Nat := buffer.numSamples

/-- `AudioBuffer::clear (channel, startSample, numSamples)`: zero a region of one
channel. -/
def clear [Zero S] (buffer : AudioBuffer S) (channel startSample numSamples : Nat) :
    AudioBuffer S :=
  { buffer with
    data := fun c s =>
      if c = channel ∧ startSample ≤ s ∧ s < startSample + numSamples then 0
      else buffer.data c s }

/-- A store through the channel pointer: `channelData[sample] = v`. -/
def write (buffer : AudioBuffer S) (channel sample : Nat) (v : S) : AudioBuffer S :=
  { buffer with
    data := fun c s => if c = channel ∧ s = sample then v else buffer.data c s }

end AudioBuffer

/-! ## Binary32 arithmetic and the per-block transform -/

section Negation

variable {F : Type} [LinearOrderedField F]

/-- The `float` zero that `AudioBuffer::clear` writes. -/
instance Binary32.instZero : Zero (Binary32 F) := ⟨Binary32.finite 0⟩

/-- An operand as the multiplier sees it: with `ScopedNoDenormals` in force
(`noDenormals`), an operand below the smallest normal magnitude `2^-126` counts as
zero. -/
def flushDenormalInput (noDenormals : Bool) (v : F) : F :=
  if noDenormals = true ∧ |v| < (2 : F) ^ (-126 : ℤ) then 0 else v

end Negation

section Transform

variable {F : Type} [LinearOrderedField F] [FloorRing F]

/-- Round to the nearest integer, a tie going to the even one. -/
def roundHalfEven (r : F) : ℤ :=
  if r - ⌊r⌋ < 1 / 2 then ⌊r⌋
  else if 1 / 2 < r - ⌊r⌋ then ⌊r⌋ + 1
  else if ⌊r⌋ % 2 = 0 then ⌊r⌋
  else ⌊r⌋ + 1

/-- The binary32 value an exact result `q` is stored as: `q` rounded to the nearest
multiple of the unit in the last place of its binade (24 significant bits, exponent not
below `-126`), a tie going to the even significand; a magnitude of `2^128` or more is an
infinity; with `noDenormals`, a result below `2^-126` is flushed to zero. -/
def roundToBinary32 (noDenormals : Bool) (q : F) : Binary32 F :=
  if q = 0 then .finite 0
  else
    let exponent := max (Int.log 2 |q|) (-126)
    let ulp : F := (2 : F) ^ (exponent - 23)
    let magnitude : F := (roundHalfEven (|q| / ulp) : F) * ulp
    if (2 : F) ^ (128 : ℤ) ≤ magnitude then .infinity (decide (q < 0))
    else if noDenormals = true ∧ magnitude < (2 : F) ^ (-126 : ℤ) then .finite 0
    else .finite (if q < 0 then -magnitude else magnitude)

/-- The binary32 product `x * g` of a buffer sample `x` and a finite factor `g`: the exact
product, rounded; an infinite sample gives an infinity of the product's sign, or a NaN
when the factor is zero; a NaN sample gives a NaN. -/
def Binary32.mul (noDenormals : Bool) (x : Binary32 F) (g : F) : Binary32 F :=
  match x with
  | .finite v =>
    roundToBinary32 noDenormals
      (flushDenormalInput noDenormals v * flushDenormalInput noDenormals g)
  | .infinity negative =>
    if flushDenormalInput noDenormals g = 0 then .nan
    else .infinity (negative != decide (g < 0))
  | .nan => .nan

namespace IntrotutorialAudioProcessor

/-- The body of the sample loop of `processBlock` (lines 216-220).  Line 219,
`channelData[sample] *= rawGain`, stores the binary32 product.  Line 217,
`channelData[sample] *= rawGain * -1.0`, forms `rawGain * -1.0` and the product in
`double`, where both are exact for `float` operands, and stores the product converted
to `float`: the binary32 product with the negated gain. -/
def processSample (noDenormals : Bool) (self : IntrotutorialAudioProcessor F)
    (buffer : AudioBuffer (Binary32 F)) (channel sample : Nat) : AudioBuffer (Binary32 F) :=
  if self.phase then
    buffer.write channel sample
      ((buffer.data channel sample).mul noDenormals (self.rawGain * -1))
  else
    buffer.write channel sample ((buffer.data channel sample).mul noDenormals self.rawGain)

/-- `IntrotutorialAudioProcessor::processBlock` (lines 180-227).  `noDenormals` tells
whether the `ScopedNoDenormals` of line 182 puts the platform's floating-point unit in
flush-to-zero mode (it does where JUCE implements it, and is empty elsewhere).  The two
channel counts are what `getTotalNumInputChannels()` and `getTotalNumOutputChannels()`
return; the MIDI buffer is not used.  The `AudioBlock` refers to the buffer's own
memory, with the buffer's channel and sample counts. -/
def processBlock (noDenormals : Bool) (self : IntrotutorialAudioProcessor F)
    (totalNumInputChannels totalNumOutputChannels : Nat) (buffer : AudioBuffer (Binary32 F)) :
    AudioBuffer (Binary32 F) :=
  let buffer :=
    (List.range' totalNumInputChannels (totalNumOutputChannels - totalNumInputChannels)).foldl
      (fun buffer i => buffer.clear i 0 buffer.getNumSamples) buffer
  let blockNumChannels := buffer.getNumChannels
  let blockNumSamples := buffer.getNumSamples
  (List.range blockNumChannels).foldl
    (fun buffer channel =>
      (List.range blockNumSamples).foldl
        (fun buffer sample => processSample noDenormals self buffer channel sample) buffer)
    buffer

/-- What the sample loop does to one sample value: the binary32 product with the cached
gain, or with the negated cached gain when the cached phase is set (the two branches of
lines 216-220). -/
def applyGain (noDenormals : Bool) (self : IntrotutorialAudioProcessor F)
    (x : Binary32 F) : Binary32 F :=
  if self.phase then x.mul noDenormals (self.rawGain * -1) else x.mul noDenormals self.rawGain

end IntrotutorialAudioProcessor

end Transform

/-- The `float` nearest to one tenth, `0.1f`. -/
def tenthFloat : ℚ := 13421773 / 134217728

/-! ## Binary32 arithmetic: facts -/

section ArithmeticFacts

variable {F : Type} [LinearOrderedField F] [FloorRing F]

/-- Zero is stored as zero. -/
theorem roundToBinary32_zero (noDenormals : Bool) :
    roundToBinary32 noDenormals (0 : F) = Binary32.finite 0 := by
  simp [roundToBinary32]

/-- The product of the zero sample with any finite factor is zero. -/
theorem Binary32.zero_sample_mul (noDenormals : Bool) (g : F) :
    (Binary32.finite (0 : F)).mul noDenormals g = Binary32.finite 0 := by
  have h0 : flushDenormalInput noDenormals (0 : F) = 0 := by
    unfold flushDenormalInput
    split_ifs <;> rfl
  show roundToBinary32 noDenormals
      (flushDenormalInput noDenormals 0 * flushDenormalInput noDenormals g) = _
  rw [h0, zero_mul]
  exact roundToBinary32_zero noDenormals

end ArithmeticFacts

/-- The exact product of `0.1f` and `3`, which is `40265319 / 134217728`, is stored as
`5033165 / 16777216`. -/
theorem roundToBinary32_tenth_times_three (noDenormals : Bool) :
    roundToBinary32 noDenormals (tenthFloat * 3) = Binary32.finite (5033165 / 16777216) := by
  have hq : tenthFloat * 3 = (40265319 / 134217728 : ℚ) := by
    unfold tenthFloat
    norm_num
  rw [hq]
  have hlog : Int.log 2 |(40265319 / 134217728 : ℚ)| = -2 := by
    rw [abs_of_pos (by norm_num)]
    apply le_antisymm
    · have : Int.log 2 (40265319 / 134217728 : ℚ) < -1 := by
        rw [← Int.lt_zpow_iff_log_lt (by norm_num) (by norm_num)]
        norm_num
      omega
    · rw [← Int.zpow_le_iff_le_log (by norm_num) (by norm_num)]
      norm_num
  have hfl : ⌊(40265319 / 4 : ℚ)⌋ = 10066329 := by
    rw [Int.floor_eq_iff]
    norm_num
  have hr : roundHalfEven (40265319 / 4 : ℚ) = 10066330 := by
    unfold roundHalfEven
    rw [hfl]
    norm_num
  unfold roundToBinary32
  rw [hlog]
  have hdiv : |(40265319 / 134217728 : ℚ)| / 2 ^ (max (-2 : ℤ) (-126) - 23)
      = 40265319 / 4 := by
    rw [abs_of_pos (by norm_num)]
    norm_num
  simp only [hdiv, hr]
  norm_num

/-- The exact product of `3.0e38f` and `10` is beyond the binary32 range and is stored as
`+infinity`. -/
theorem roundToBinary32_overflow (noDenormals : Bool) :
    roundToBinary32 noDenormals ((300000000549775575777803994281145270272 : ℚ) * 10)
      = Binary32.infinity false := by
  have hq : (300000000549775575777803994281145270272 : ℚ) * 10
      = 3000000005497755757778039942811452702720 := by norm_num
  rw [hq]
  have hlog : Int.log 2 |(3000000005497755757778039942811452702720 : ℚ)| = 131 := by
    rw [abs_of_pos (by norm_num)]
    apply le_antisymm
    · have : Int.log 2 (3000000005497755757778039942811452702720 : ℚ) < 132 := by
        rw [← Int.lt_zpow_iff_log_lt (by norm_num) (by norm_num)]
        norm_num
      omega
    · rw [← Int.zpow_le_iff_le_log (by norm_num) (by norm_num)]
      norm_num
  have hfl : ⌊(3000000005497755757778039942811452702720 / 2 ^ 108 : ℚ)⌋ = 9244463 := by
    rw [Int.floor_eq_iff]
    norm_num
  have hr : roundHalfEven (3000000005497755757778039942811452702720 / 2 ^ 108 : ℚ)
      = 9244464 := by
    unfold roundHalfEven
    rw [hfl]
    norm_num
  unfold roundToBinary32
  rw [hlog]
  have hdiv : |(3000000005497755757778039942811452702720 : ℚ)| / 2 ^ (max (131 : ℤ) (-126) - 23)
      = 3000000005497755757778039942811452702720 / 2 ^ 108 := by
    rw [abs_of_pos (by norm_num)]
    norm_num
  simp only [hdiv, hr]
  norm_num

section ClosedForm

variable {F : Type} [LinearOrderedField F] [FloorRing F]

theorem processSample_eq (noDenormals : Bool) (self : IntrotutorialAudioProcessor F)
    (buffer : AudioBuffer (Binary32 F)) (channel sample : Nat) :
    self.processSample noDenormals buffer channel sample
      = buffer.write channel sample
          (self.applyGain noDenormals (buffer.data channel sample)) := by
  unfold IntrotutorialAudioProcessor.processSample IntrotutorialAudioProcessor.applyGain
  cases self.phase <;> simp

omit [FloorRing F] in
/-- The clearing loop, over any list of channel indices. -/
theorem clearLoop_spec (l : List Nat) (buffer : AudioBuffer (Binary32 F)) :
    let out := l.foldl (fun buffer i => buffer.clear i 0 buffer.getNumSamples) buffer
    out.numChannels = buffer.numChannels ∧ out.numSamples = buffer.numSamples ∧
      ∀ c s, out.data c s
        = if c ∈ l ∧ s < buffer.numSamples then Binary32.finite 0 else buffer.data c s := by
  induction l generalizing buffer with
  | nil => simp
  | cons i t ih =>
    obtain ⟨h1, h2, h3⟩ := ih (buffer.clear i 0 buffer.getNumSamples)
    simp only [List.foldl_cons]
    refine ⟨h1, h2, ?_⟩
    intro c s
    rw [h3 c s]
    have hzero : (0 : Binary32 F) = Binary32.finite 0 := rfl
    simp only [AudioBuffer.clear, AudioBuffer.getNumSamples, List.mem_cons, Nat.zero_le,
      true_and, Nat.zero_add, hzero]
    by_cases hs : s < buffer.numSamples <;> by_cases hc : c = i <;> by_cases ht : c ∈ t <;>
      simp [hs, hc, ht]

/-- The sample loop of one channel, over any duplicate-free list of sample indices. -/
theorem sampleLoop_spec (noDenormals : Bool) (self : IntrotutorialAudioProcessor F)
    (channel : Nat) (l : List Nat) (hl : l.Nodup) (buffer : AudioBuffer (Binary32 F)) :
    let out := l.foldl
      (fun buffer sample => self.processSample noDenormals buffer channel sample) buffer
    out.numChannels = buffer.numChannels ∧ out.numSamples = buffer.numSamples ∧
      ∀ c s, out.data c s
        = if c = channel ∧ s ∈ l then self.applyGain noDenormals (buffer.data c s)
          else buffer.data c s := by
  induction l generalizing buffer with
  | nil => simp
  | cons i t ih =>
    obtain ⟨hi, ht⟩ := List.nodup_cons.mp hl
    obtain ⟨h1, h2, h3⟩ := ih ht (self.processSample noDenormals buffer channel i)
    simp only [List.foldl_cons]
    refine ⟨by rw [h1, processSample_eq]; rfl, by rw [h2, processSample_eq]; rfl, ?_⟩
    intro c s
    rw [h3 c s, processSample_eq]
    simp only [AudioBuffer.write, List.mem_cons]
    by_cases hc : c = channel
    · subst hc
      by_cases hs : s = i
      · subst hs
        simp [hi]
      · simp [hs]
    · simp [hc]

/-- The channel loop, over any duplicate-free lists of channel and sample indices. -/
theorem channelLoop_spec (noDenormals : Bool) (self : IntrotutorialAudioProcessor F)
    (ls : List Nat) (hls : ls.Nodup) (lc : List Nat) (hlc : lc.Nodup)
    (buffer : AudioBuffer (Binary32 F)) :
    let out := lc.foldl (fun buffer channel =>
      ls.foldl (fun buffer sample => self.processSample noDenormals buffer channel sample)
        buffer) buffer
    out.numChannels = buffer.numChannels ∧ out.numSamples = buffer.numSamples ∧
      ∀ c s, out.data c s
        = if c ∈ lc ∧ s ∈ ls then self.applyGain noDenormals (buffer.data c s)
          else buffer.data c s := by
  induction lc generalizing buffer with
  | nil => simp
  | cons i t ih =>
    obtain ⟨hi, ht⟩ := List.nodup_cons.mp hlc
    obtain ⟨g1, g2, g3⟩ := sampleLoop_spec noDenormals self i ls hls buffer
    obtain ⟨h1, h2, h3⟩ := ih ht
      (ls.foldl (fun buffer sample => self.processSample noDenormals buffer i sample) buffer)
    simp only [List.foldl_cons]
    refine ⟨h1.trans g1, h2.trans g2, ?_⟩
    intro c s
    rw [h3 c s, g3 c s]
    simp only [List.mem_cons]
    by_cases hc : c = i
    · subst hc
      simp [hi]
    · simp [hc]

/-- Closed form of `processBlock`: the counts are kept; inside the buffer, a channel in
`[totalNumInputChannels, totalNumOutputChannels)` ends as the gain applied to zero, and
every other channel as the gain applied to its old content. -/
theorem processBlock_spec (noDenormals : Bool) (self : IntrotutorialAudioProcessor F)
    (nIn nOut : Nat) (buffer : AudioBuffer (Binary32 F)) :
    (self.processBlock noDenormals nIn nOut buffer).numChannels = buffer.numChannels ∧
    (self.processBlock noDenormals nIn nOut buffer).numSamples = buffer.numSamples ∧
    ∀ c s, c < buffer.numChannels → s < buffer.numSamples →
      (self.processBlock noDenormals nIn nOut buffer).data c s
        = if nIn ≤ c ∧ c < nOut then self.applyGain noDenormals (Binary32.finite 0)
          else self.applyGain noDenormals (buffer.data c s) := by
  have key : ∀ cleared : AudioBuffer (Binary32 F),
      cleared.numChannels = buffer.numChannels → cleared.numSamples = buffer.numSamples →
      (∀ c s, cleared.data c s
        = if c ∈ List.range' nIn (nOut - nIn) ∧ s < buffer.numSamples then Binary32.finite 0
          else buffer.data c s) →
      let out := (List.range cleared.getNumChannels).foldl (fun buffer channel =>
        (List.range cleared.getNumSamples).foldl
          (fun buffer sample => self.processSample noDenormals buffer channel sample) buffer)
        cleared
      out.numChannels = buffer.numChannels ∧ out.numSamples = buffer.numSamples ∧
      ∀ c s, c < buffer.numChannels → s < buffer.numSamples →
        out.data c s
          = if nIn ≤ c ∧ c < nOut then self.applyGain noDenormals (Binary32.finite 0)
            else self.applyGain noDenormals (buffer.data c s) := by
    intro cleared c1 c2 c3
    obtain ⟨h1, h2, h3⟩ := channelLoop_spec noDenormals self (List.range cleared.getNumSamples)
      (List.nodup_range _) (List.range cleared.getNumChannels) (List.nodup_range _) cleared
    refine ⟨h1.trans c1, h2.trans c2, ?_⟩
    intro c s hc hs
    have hc2 : c < cleared.getNumChannels := by
      unfold AudioBuffer.getNumChannels; omega
    have hs2 : s < cleared.getNumSamples := by
      unfold AudioBuffer.getNumSamples; omega
    have e := h3 c s
    simp only [List.mem_range, hc2, hs2, and_self, if_true] at e
    simp only [e, c3 c s, hs, and_true]
    by_cases hr : nIn ≤ c ∧ c < nOut
    · have hm : c ∈ List.range' nIn (nOut - nIn) := by
        rw [List.mem_range']
        exact ⟨c - nIn, by omega, by omega⟩
      simp [hr, hm]
    · have hm : c ∉ List.range' nIn (nOut - nIn) := by
        rw [List.mem_range']
        rintro ⟨i, hi, rfl⟩
        omega
      simp [hr, hm]
  obtain ⟨c1, c2, c3⟩ := clearLoop_spec (List.range' nIn (nOut - nIn)) buffer
  exact key _ c1 c2 c3

/-- A gain applied to the zero sample is zero, whatever the cached gain and phase. -/
theorem applyGain_zero (noDenormals : Bool) (self : IntrotutorialAudioProcessor F) :
    self.applyGain noDenormals (Binary32.finite 0) = Binary32.finite 0 := by
  unfold IntrotutorialAudioProcessor.applyGain
  split <;> exact Binary32.zero_sample_mul noDenormals _

end ClosedForm

/-! ## The per-block transform -/

open IntrotutorialAudioProcessor

/-- C6: whatever the cached gain and phase and whatever the buffer held, after
`processBlock` every sample of every channel of the buffer with index from
`totalNumInputChannels` up to, not including, `totalNumOutputChannels` is zero. -/
theorem processBlock_extra_channels_zero {F : Type} [LinearOrderedField F] [FloorRing F]
    (noDenormals : Bool) (self : IntrotutorialAudioProcessor F)
    (totalNumInputChannels totalNumOutputChannels : Nat) (buffer : AudioBuffer (Binary32 F))
    (c s : Nat) (hin : totalNumInputChannels ≤ c) (hout : c < totalNumOutputChannels)
    (hc : c < buffer.numChannels) (hs : s < buffer.numSamples) :
    (self.processBlock noDenormals totalNumInputChannels totalNumOutputChannels buffer).data
      c s = Binary32.finite 0 := by
  rw [(processBlock_spec noDenormals self totalNumInputChannels totalNumOutputChannels
    buffer).2.2 c s hc hs]
  simp [hin, hout, applyGain_zero]

/-- C6, witness: a mono input into a stereo buffer, gain 3 with phase on; the second
channel held 7 everywhere and ends as 0. -/
theorem processBlock_extra_channels_zero_witness :
    (({ treeState := createParameterLayout, rawGain := 3, phase := true } :
        IntrotutorialAudioProcessor ℚ).processBlock true 1 2
      { numChannels := 2, numSamples := 4, data := fun _ _ => Binary32.finite 7 }).data 1 3
      = Binary32.finite 0 :=
  processBlock_extra_channels_zero true _ 1 2 _ 1 3 (by decide) (by decide) (by decide)
    (by decide)

/-- C8: `parameterChanged ("choice", v)` leaves the cached `rawGain` and `phase`
unchanged, and `processBlock` gives the same output buffer for every input buffer and
channel configuration before and after the change. -/
theorem parameterChanged_choice_no_effect {F : Type} [LinearOrderedField F] [FloorRing F]
    (decibelsToGain : F → F) (self : IntrotutorialAudioProcessor F) (v : F) :
    (parameterChanged decibelsToGain self "choice" v).rawGain = self.rawGain
    ∧ (parameterChanged decibelsToGain self "choice" v).phase = self.phase
    ∧ ∀ (noDenormals : Bool) (totalNumInputChannels totalNumOutputChannels : Nat)
        (buffer : AudioBuffer (Binary32 F)),
        (parameterChanged decibelsToGain self "choice" v).processBlock noDenormals
            totalNumInputChannels totalNumOutputChannels buffer
          = self.processBlock noDenormals totalNumInputChannels totalNumOutputChannels
              buffer := by
  have h : parameterChanged decibelsToGain self "choice" v = self := by
    simp [parameterChanged]
  rw [h]
  exact ⟨rfl, rfl, fun _ _ _ _ => rfl⟩

/-! ## The change callback -/

section Callback

variable {F : Type} [Ring F] [DecidableEq F]

/-- C9: `parameterChanged ("gain", v)` leaves the cached phase unchanged,
`parameterChanged ("phase", v)` leaves the cached `rawGain` unchanged, and
`parameterChanged` with an ID other than `"gain"` and `"phase"` leaves both unchanged. -/
theorem parameterChanged_frame (decibelsToGain : F → F)
    (self : IntrotutorialAudioProcessor F) (v : F) (parameterID : String)
    (hg : parameterID ≠ "gain") (hp : parameterID ≠ "phase") :
    (parameterChanged decibelsToGain self "gain" v).phase = self.phase
    ∧ (parameterChanged decibelsToGain self "phase" v).rawGain = self.rawGain
    ∧ (parameterChanged decibelsToGain self parameterID v).rawGain = self.rawGain
    ∧ (parameterChanged decibelsToGain self parameterID v).phase = self.phase := by
  simp [parameterChanged, hg, hp]

/-- C9, witness: the ID `"choice"`, on a processor with gain 2 and phase on. -/
theorem parameterChanged_frame_witness :
    (parameterChanged (fun d : ℤ => d + 1)
        { treeState := createParameterLayout, rawGain := 2, phase := true } "gain" 5).phase = true
    ∧ (parameterChanged (fun d : ℤ => d + 1)
        { treeState := createParameterLayout, rawGain := 2, phase := true } "phase" 5).rawGain = 2
    ∧ (parameterChanged (fun d : ℤ => d + 1)
        { treeState := createParameterLayout, rawGain := 2, phase := true } "choice" 5).rawGain = 2
    ∧ (parameterChanged (fun d : ℤ => d + 1)
        { treeState := createParameterLayout, rawGain := 2, phase := true } "choice" 5).phase
          = true :=
  parameterChanged_frame (fun d : ℤ => d + 1)
    { treeState := createParameterLayout, rawGain := 2, phase := true } 5 "choice"
    (by decide) (by decide)

/-- C10: after `parameterChanged ("phase", v)` the cached phase is true exactly when `v`
is not zero; `prepareToPlay`, and `setStateInformation` on a blob that reads as a valid
tree, set the cached phase by the same rule from the stored raw phase value. -/
theorem phase_nonzero_rule (decibelsToGain : F → F) (readFromData : MemoryBlock → ValueTree F)
    (self : IntrotutorialAudioProcessor F) (v : F) (data : MemoryBlock)
    (state : ParameterStore F) (hread : readFromData data = some state) :
    ((parameterChanged decibelsToGain self "phase" v).phase = true ↔ v ≠ 0)
    ∧ ((self.prepareToPlay decibelsToGain).phase = true ↔ self.treeState.phase ≠ 0)
    ∧ ((self.setStateInformation decibelsToGain readFromData data).phase = true
        ↔ state.phase ≠ 0)
    ∧ (self.setStateInformation decibelsToGain readFromData data).treeState.phase
        = state.phase := by
  simp [parameterChanged, prepareToPlay, setStateInformation, hread, floatToBool,
    ParameterStore.getRawParameterValue]

end Callback

/-- C10, witness: the value 5 (not 1.0) turns the phase on, and the blob
`[80, 128, 133, 128]` reads as a tree with raw phase 5. -/
theorem phase_nonzero_rule_witness :
    ((parameterChanged (fun d : ℤ => d)
        { treeState := createParameterLayout, rawGain := 1, phase := false } "phase" 5).phase = true
      ↔ (5 : ℤ) ≠ 0)
    ∧ ((prepareToPlay (fun d : ℤ => d)
        { treeState := createParameterLayout, rawGain := 1, phase := false }).phase = true
      ↔ (createParameterLayout : ParameterStore ℤ).phase ≠ 0)
    ∧ ((setStateInformation (fun d : ℤ => d) exampleReadFromData
        { treeState := createParameterLayout, rawGain := 1, phase := false }
        [80, 128, 133, 128]).phase = true
      ↔ ({ gain := 0, phase := 5, choice := 0 } : ParameterStore ℤ).phase ≠ 0)
    ∧ (setStateInformation (fun d : ℤ => d) exampleReadFromData
        { treeState := createParameterLayout, rawGain := 1, phase := false }
        [80, 128, 133, 128]).treeState.phase
      = ({ gain := 0, phase := 5, choice := 0 } : ParameterStore ℤ).phase :=
  phase_nonzero_rule (fun d : ℤ => d) exampleReadFromData
    { treeState := createParameterLayout, rawGain := 1, phase := false } 5
    [80, 128, 133, 128] { gain := 0, phase := 5, choice := 0 } (by decide)

/-! ## Bus layouts -/

/-- C5: in the audio-effect build (neither `JucePlugin_IsMidiEffect` nor
`JucePlugin_IsSynth` set), `isBusesLayoutSupported` returns true exactly when the main
output channel set is mono or stereo and the main input channel set equals the main
output channel set; it rejects the 6-channel 5.1 layout and accepts mono to mono and
stereo to stereo. -/
theorem isBusesLayoutSupported_iff :
    (∀ layouts : BusesLayout,
      isBusesLayoutSupported false false layouts = true ↔
        (layouts.getMainOutputChannelSet = AudioChannelSet.mono
          ∨ layouts.getMainOutputChannelSet = AudioChannelSet.stereo)
        ∧ layouts.getMainInputChannelSet = layouts.getMainOutputChannelSet)
    ∧ AudioChannelSet.create5point1.card = 6
    ∧ isBusesLayoutSupported false false
        { inputBuses := [AudioChannelSet.create5point1],
          outputBuses := [AudioChannelSet.create5point1] } = false
    ∧ isBusesLayoutSupported false false
        { inputBuses := [AudioChannelSet.mono], outputBuses := [AudioChannelSet.mono] } = true
    ∧ isBusesLayoutSupported false false
        { inputBuses := [AudioChannelSet.stereo], outputBuses := [AudioChannelSet.stereo] }
          = true := by
  refine ⟨?_, by decide, by decide, by decide, by decide⟩
  intro layouts
  unfold isBusesLayoutSupported
  generalize layouts.getMainOutputChannelSet = output
  generalize layouts.getMainInputChannelSet = input
  by_cases h3 : output = input
  · subst h3
    by_cases h1 : output = AudioChannelSet.mono <;>
      by_cases h2 : output = AudioChannelSet.stereo <;> simp [h1, h2]
  · have h3r : ¬ input = output := fun h => h3 h.symm
    simp [h3, h3r]

/-! ## State persistence -/

section Persistence

variable {F : Type} [Ring F] [DecidableEq F]

/-- C3: when the blob does not read as a valid tree, `setStateInformation` returns the
processor unchanged: the parameter store, the cached `rawGain` and the cached `phase` are
what they were.  The operation is a total function, so no error is raised. -/
theorem setStateInformation_invalid_noop (decibelsToGain : F → F)
    (readFromData : MemoryBlock → ValueTree F) (self : IntrotutorialAudioProcessor F)
    (data : MemoryBlock) (hinvalid : ValueTree.isValid (readFromData data) = false) :
    self.setStateInformation decibelsToGain readFromData data = self := by
  unfold setStateInformation
  cases h : readFromData data with
  | none => rfl
  | some state => simp [ValueTree.isValid, h] at hinvalid

end Persistence

/-- C3, witness: the gain is set to 6 dB, then the garbage blob `[222, 173, 190]` is
loaded; the state is unchanged and the gain is still 6 dB. -/
theorem setStateInformation_invalid_noop_witness :
    ValueTree.isValid (exampleReadFromData [222, 173, 190] : ValueTree ℤ) = false
    ∧ setStateInformation (fun d : ℤ => 2 * d) exampleReadFromData
        (ControlOp.apply (fun d : ℤ => 2 * d) exampleReadFromData
          { treeState := createParameterLayout, rawGain := 1, phase := false }
          (.parameterChange "gain" 6))
        [222, 173, 190]
      = ControlOp.apply (fun d : ℤ => 2 * d) exampleReadFromData
          { treeState := createParameterLayout, rawGain := 1, phase := false }
          (.parameterChange "gain" 6)
    ∧ (ControlOp.apply (fun d : ℤ => 2 * d) exampleReadFromData
          { treeState := createParameterLayout, rawGain := 1, phase := false }
          (.parameterChange "gain" 6)).treeState.gain = 6 :=
  ⟨by decide,
   setStateInformation_invalid_noop (fun d : ℤ => 2 * d) exampleReadFromData
    (ControlOp.apply (fun d : ℤ => 2 * d) exampleReadFromData
      { treeState := createParameterLayout, rawGain := 1, phase := false }
      (.parameterChange "gain" 6))
    [222, 173, 190] (by decide),
   by decide⟩

/-! ## Coherence of the cached values -/

section Coherence

variable {F : Type} [Ring F] [DecidableEq F]

/-- `prepareToPlay` makes the cached values those derived from the store. -/
theorem prepareToPlay_coherent (decibelsToGain : F → F) (self : IntrotutorialAudioProcessor F) :
    (self.prepareToPlay decibelsToGain).rawGain
        = decibelsToGain (self.prepareToPlay decibelsToGain).treeState.gain
    ∧ (self.prepareToPlay decibelsToGain).phase
        = floatToBool (self.prepareToPlay decibelsToGain).treeState.phase := by
  simp [prepareToPlay, ParameterStore.getRawParameterValue]

/-- Every control operation keeps the cached values those derived from the store. -/
theorem apply_coherent (decibelsToGain : F → F) (readFromData : MemoryBlock → ValueTree F)
    (self : IntrotutorialAudioProcessor F) (op : ControlOp F)
    (h : self.rawGain = decibelsToGain self.treeState.gain
      ∧ self.phase = floatToBool self.treeState.phase) :
    (op.apply decibelsToGain readFromData self).rawGain
        = decibelsToGain (op.apply decibelsToGain readFromData self).treeState.gain
    ∧ (op.apply decibelsToGain readFromData self).phase
        = floatToBool (op.apply decibelsToGain readFromData self).treeState.phase := by
  obtain ⟨hg, hp⟩ := h
  cases op with
  | parameterChange parameterID newValue =>
    by_cases h1 : parameterID = "gain"
    · subst h1
      simp [ControlOp.apply, parameterChanged, ParameterStore.setValue, hp]
    · by_cases h2 : parameterID = "phase"
      · subst h2
        simp [ControlOp.apply, parameterChanged, ParameterStore.setValue, hg]
      · by_cases h3 : parameterID = "choice"
        · subst h3
          simp [ControlOp.apply, parameterChanged, ParameterStore.setValue, hg, hp]
        · simp [ControlOp.apply, parameterChanged, ParameterStore.setValue, h1, h2, h3, hg, hp]
  | prepareToPlay => exact prepareToPlay_coherent decibelsToGain self
  | setStateInformation data =>
    cases h : readFromData data with
    | none => simp [ControlOp.apply, IntrotutorialAudioProcessor.setStateInformation, h, hg, hp]
    | some state =>
      simp [ControlOp.apply, IntrotutorialAudioProcessor.setStateInformation, h,
        ParameterStore.getRawParameterValue]

/-- A sequence of control operations keeps the cached values those derived from the
store. -/
theorem runControl_coherent (decibelsToGain : F → F) (readFromData : MemoryBlock → ValueTree F)
    (ops : List (ControlOp F)) (self : IntrotutorialAudioProcessor F)
    (h : self.rawGain = decibelsToGain self.treeState.gain
      ∧ self.phase = floatToBool self.treeState.phase) :
    (runControl decibelsToGain readFromData self ops).rawGain
        = decibelsToGain (runControl decibelsToGain readFromData self ops).treeState.gain
    ∧ (runControl decibelsToGain readFromData self ops).phase
        = floatToBool (runControl decibelsToGain readFromData self ops).treeState.phase := by
  induction ops generalizing self with
  | nil => exact h
  | cons op rest ih =>
    exact ih (op.apply decibelsToGain readFromData self)
      (apply_coherent decibelsToGain readFromData self op h)

end Coherence

/-- C7: in every state reached from `prepareToPlay` by a sequence of control operations
(committed parameter changes delivered through `parameterChanged`, `prepareToPlay`,
`setStateInformation` with any blob), with the stored gain in its declared range
`[-24, 24]`, the cached `rawGain` is `10^(gain/20)` for the stored gain and the cached
phase is true exactly when the stored raw phase is not zero; and a load of a blob that
reads as a valid tree replaces the store by that tree and recomputes both cached values
from it. -/
theorem cache_coherence (decibelsToGain : ℝ → ℝ)
    (hdb : ∀ d : ℝ, -24 ≤ d → d ≤ 24 → decibelsToGain d = (10 : ℝ) ^ (d / 20))
    (readFromData : MemoryBlock → ValueTree ℝ) (self : IntrotutorialAudioProcessor ℝ)
    (ops : List (ControlOp ℝ))
    (hlo : -24 ≤ (runControl decibelsToGain readFromData
        (self.prepareToPlay decibelsToGain) ops).treeState.gain)
    (hhi : (runControl decibelsToGain readFromData
        (self.prepareToPlay decibelsToGain) ops).treeState.gain ≤ 24) :
    (runControl decibelsToGain readFromData (self.prepareToPlay decibelsToGain) ops).rawGain
      = (10 : ℝ) ^ ((runControl decibelsToGain readFromData
          (self.prepareToPlay decibelsToGain) ops).treeState.gain / 20)
    ∧ ((runControl decibelsToGain readFromData (self.prepareToPlay decibelsToGain) ops).phase
        = true
      ↔ (runControl decibelsToGain readFromData
          (self.prepareToPlay decibelsToGain) ops).treeState.phase ≠ 0)
    ∧ ∀ (data : MemoryBlock) (state : ParameterStore ℝ), readFromData data = some state →
        ((runControl decibelsToGain readFromData (self.prepareToPlay decibelsToGain)
            ops).setStateInformation decibelsToGain readFromData data).treeState = state
        ∧ ((runControl decibelsToGain readFromData (self.prepareToPlay decibelsToGain)
            ops).setStateInformation decibelsToGain readFromData data).rawGain
          = decibelsToGain state.gain
        ∧ (((runControl decibelsToGain readFromData (self.prepareToPlay decibelsToGain)
            ops).setStateInformation decibelsToGain readFromData data).phase = true
          ↔ state.phase ≠ 0) := by
  obtain ⟨hg, hp⟩ := runControl_coherent decibelsToGain readFromData ops
    (self.prepareToPlay decibelsToGain) (prepareToPlay_coherent decibelsToGain self)
  refine ⟨?_, ?_, ?_⟩
  · rw [hg]
    exact hdb _ hlo hhi
  · rw [hp]
    simp [floatToBool]
  · intro data state hread
    simp [setStateInformation, hread, ParameterStore.getRawParameterValue, floatToBool]

/-- The example control sequence, run from the default store with JUCE's `decibelsToGain`,
ends with a stored gain of 12 dB. -/
theorem exampleControlSequence_gain :
    (runControl (fun d : ℝ => if -100 < d then (10 : ℝ) ^ (d * 0.05) else 0)
      exampleReadFromData
      (prepareToPlay (fun d : ℝ => if -100 < d then (10 : ℝ) ^ (d * 0.05) else 0)
        { treeState := createParameterLayout, rawGain := 1, phase := false })
      exampleControlSequence).treeState.gain = 12 := by
  simp [runControl, exampleControlSequence, ControlOp.apply, setStateInformation,
    exampleReadFromData, parameterChanged, prepareToPlay, ParameterStore.setValue]
  norm_num

/-- C7, witness: the example control sequence, run from the default store with JUCE's
`decibelsToGain` and the example tree reader. -/
theorem cache_coherence_witness :
    (runControl (fun d : ℝ => if -100 < d then (10 : ℝ) ^ (d * 0.05) else 0)
          exampleReadFromData
          (prepareToPlay (fun d : ℝ => if -100 < d then (10 : ℝ) ^ (d * 0.05) else 0)
            { treeState := createParameterLayout, rawGain := 1, phase := false })
          exampleControlSequence).rawGain
      = (10 : ℝ) ^ ((runControl (fun d : ℝ => if -100 < d then (10 : ℝ) ^ (d * 0.05) else 0)
          exampleReadFromData
          (prepareToPlay (fun d : ℝ => if -100 < d then (10 : ℝ) ^ (d * 0.05) else 0)
            { treeState := createParameterLayout, rawGain := 1, phase := false })
          exampleControlSequence).treeState.gain / 20)
    ∧ ((runControl (fun d : ℝ => if -100 < d then (10 : ℝ) ^ (d * 0.05) else 0)
          exampleReadFromData
          (prepareToPlay (fun d : ℝ => if -100 < d then (10 : ℝ) ^ (d * 0.05) else 0)
            { treeState := createParameterLayout, rawGain := 1, phase := false })
          exampleControlSequence).phase = true
      ↔ (runControl (fun d : ℝ => if -100 < d then (10 : ℝ) ^ (d * 0.05) else 0)
          exampleReadFromData
          (prepareToPlay (fun d : ℝ => if -100 < d then (10 : ℝ) ^ (d * 0.05) else 0)
            { treeState := createParameterLayout, rawGain := 1, phase := false })
          exampleControlSequence).treeState.phase ≠ 0)
    ∧ ∀ (data : MemoryBlock) (state : ParameterStore ℝ),
        exampleReadFromData data = some state →
        ((runControl (fun d : ℝ => if -100 < d then (10 : ℝ) ^ (d * 0.05) else 0)
          exampleReadFromData
          (prepareToPlay (fun d : ℝ => if -100 < d then (10 : ℝ) ^ (d * 0.05) else 0)
            { treeState := createParameterLayout, rawGain := 1, phase := false })
          exampleControlSequence).setStateInformation
            (fun d : ℝ => if -100 < d then (10 : ℝ) ^ (d * 0.05) else 0)
            exampleReadFromData data).treeState = state
        ∧ ((runControl (fun d : ℝ => if -100 < d then (10 : ℝ) ^ (d * 0.05) else 0)
          exampleReadFromData
          (prepareToPlay (fun d : ℝ => if -100 < d then (10 : ℝ) ^ (d * 0.05) else 0)
            { treeState := createParameterLayout, rawGain := 1, phase := false })
          exampleControlSequence).setStateInformation
            (fun d : ℝ => if -100 < d then (10 : ℝ) ^ (d * 0.05) else 0)
            exampleReadFromData data).rawGain
          = (fun d : ℝ => if -100 < d then (10 : ℝ) ^ (d * 0.05) else 0) state.gain
        ∧ (((runControl (fun d : ℝ => if -100 < d then (10 : ℝ) ^ (d * 0.05) else 0)
          exampleReadFromData
          (prepareToPlay (fun d : ℝ => if -100 < d then (10 : ℝ) ^ (d * 0.05) else 0)
            { treeState := createParameterLayout, rawGain := 1, phase := false })
          exampleControlSequence).setStateInformation
            (fun d : ℝ => if -100 < d then (10 : ℝ) ^ (d * 0.05) else 0)
            exampleReadFromData data).phase = true
          ↔ state.phase ≠ 0) :=
  cache_coherence (fun d : ℝ => if -100 < d then (10 : ℝ) ^ (d * 0.05) else 0)
    (by
      intro d h1 _
      have h : (-100 : ℝ) < d := by linarith
      simp only [h, if_true]
      congr 1
      ring)
    exampleReadFromData { treeState := createParameterLayout, rawGain := 1, phase := false }
    exampleControlSequence
    (by rw [exampleControlSequence_gain]; norm_num)
    (by rw [exampleControlSequence_gain]; norm_num)

end Introtutorial
